import Mathlib

/-!
Shallow embedding of `reservoir_mass_balance.py`: a reservoir with a
piecewise-linear storage-to-area curve, a weekly mass-balance update with
spill / unfulfilled-demand clamping, and a driver that simulates a chain of
reservoirs.  Python floats are modelled as rationals; exceptions
(`ValueError`, `IndexError`, the unbound-variable `NameError` of the driver)
become the error side of `Except`.
-/

deriving instance DecidableEq for Except

namespace ReservoirSim

/-- Runtime failures of the Python code: the two `ValueError` raises
(storage above capacity in `calculate_area`, week below 1 in `mass_balance`),
out-of-bounds indexing of a series, and the unbound local variable read in
`run_mass_balance` when the week loop never executed. -/
inductive Err where
  | outOfRange
  | invalidWeek
  | indexError
  | nameError
  deriving DecidableEq

/-- State of one `Reservoir` object: the two rows of the storage-area curve,
the three input time series, and the mutable stored-volume trajectory. -/
structure Reservoir where
  curve_storage : List ℚ
  curve_area : List ℚ
  evaporation_series : List ℚ
  inflow_series : List ℚ
  demand_series : List ℚ
  stored_volume : List ℚ
  deriving DecidableEq

/-- `self.__capacity = storage_area_curve[0, -1]`: the last entry of the
storage row of the curve. -/
def Reservoir.capacity (r : Reservoir) : ℚ :=
  r.curve_storage.getLastD 0

/-- `storage_area_curve.T`: the curve as a list of (storage, area) pairs. -/
def Reservoir.curveT (r : Reservoir) : List (ℚ × ℚ) :=
  r.curve_storage.zip r.curve_area

/-- The `for i in range(1, len(storage_area_curve_T))` search loop of
`calculate_area`: `sm, am` is the previously visited breakpoint, `rest` the
breakpoints still to visit.  Falling off the end returns the area of the
last visited breakpoint, exactly like the trailing `return a` in Python. -/
def areaLoop (sm am : ℚ) (rest : List (ℚ × ℚ)) (v : ℚ) : ℚ :=
  match rest with
  | [] => am
  | (s, a) :: rest' =>
    if v < s then am + (v - sm) / (s - sm) * (a - am)
    else areaLoop s a rest' v

/-- `Reservoir.calculate_area`: reject storage above capacity, otherwise
linearly interpolate on the curve.  A curve with fewer than two breakpoints
makes the Python loop body never run, so the trailing `return a` reads an
unbound variable (`nameError`). -/
def Reservoir.calculate_area (r : Reservoir) (v : ℚ) : Except Err ℚ :=
  if v > r.capacity then .error .outOfRange
  else
    match r.curveT with
    | [] => .error .nameError
    | [_] => .error .nameError
    | (s0, a0) :: p1 :: rest => .ok (areaLoop s0 a0 (p1 :: rest) v)

/-- Candidate new storage before clamping:
`stored_volume[week-1] + upstream_flow + inflow[week] - evaporation - demand[week]`. -/
def candidate (prev upstream_flow infl evRate area dem : ℚ) : ℚ :=
  prev + upstream_flow + infl - evRate * area - dem

/-- The single in-place write `self.__stored_volume[week] = new_storage`. -/
def setStored (r : Reservoir) (w : ℕ) (v : ℚ) : Reservoir :=
  { r with stored_volume := r.stored_volume.set w v }

/-- `Reservoir.mass_balance`: one mass-balance step.  On success it returns
the updated reservoir (stored_volume written at index `week`) together with
the pair `(release, unfulfilled_demand)`. -/
def Reservoir.mass_balance (r : Reservoir) (upstream_flow : ℚ) (week : ℤ) :
    Except Err (Reservoir × ℚ × ℚ) :=
  if week < 1 then .error .invalidWeek
  else
    match r.evaporation_series.get? week.toNat,
        r.stored_volume.get? (week.toNat - 1),
        r.inflow_series.get? week.toNat, r.demand_series.get? week.toNat,
        r.stored_volume.get? week.toNat with
    | some evRate, some prev, some infl, some dem, some _ =>
      match r.calculate_area prev with
      | .error e => .error e
      | .ok area =>
        if candidate prev upstream_flow infl evRate area dem > r.capacity then
          .ok (setStored r week.toNat r.capacity,
               candidate prev upstream_flow infl evRate area dem - r.capacity, 0)
        else if candidate prev upstream_flow infl evRate area dem < 0 then
          .ok (setStored r week.toNat 0,
               0, -candidate prev upstream_flow infl evRate area dem)
        else
          .ok (setStored r week.toNat
                 (candidate prev upstream_flow infl evRate area dem), 0, 0)
    | _, _, _, _, _ => .error .indexError

/-- The `Reservoir.__init__` constructor: capacity is the last storage
breakpoint and the stored-volume trajectory starts full
(`np.ones(n_weeks) * capacity` with `n_weeks = len(demands)`). -/
def Reservoir.init (storages areas evaporations inflows demands : List ℚ) :
    Reservoir :=
  { curve_storage := storages
    curve_area := areas
    evaporation_series := evaporations
    inflow_series := inflows
    demand_series := demands
    stored_volume := List.replicate demands.length (storages.getLastD 0) }

/-- The inner `for reservoir in reservoirs` loop of `run_mass_balance` for a
fixed week: threads `release` from each reservoir to the next, keeps the last
`unfulfilled_demand`, and accumulates `total_unfulfilled_demand`.  Returns
the updated reservoirs together with the final values of the three
variables. -/
def runWeek (week : ℤ) :
    List Reservoir → ℚ → ℚ → ℚ → Except Err (List Reservoir × ℚ × ℚ × ℚ)
  | [], release, ud, total => .ok ([], release, ud, total)
  | r :: rest, release, _, total =>
    match r.mass_balance release week with
    | .error e => .error e
    | .ok (r2, rel2, ud2) =>
      match runWeek week rest rel2 ud2 (total + ud2) with
      | .error e => .error e
      | .ok (rs, relF, udF, totF) => .ok (r2 :: rs, relF, udF, totF)

/-- The outer `for week in range(1, n_weeks)` loop: each week re-initializes
`release, unfulfilled_demand, total_unfulfilled_demand = 0, 0, 0` and runs
the chain.  The accumulator carries the `(unfulfilled_demand,
total_unfulfilled_demand)` values left over from the most recent week, or
`none` when the loop body has not executed yet (the variables are unbound). -/
def runWeeks :
    List ℤ → List Reservoir → Option (ℚ × ℚ) →
      Except Err (List Reservoir × Option (ℚ × ℚ))
  | [], rs, lastVals => .ok (rs, lastVals)
  | w :: ws, rs, _ =>
    match runWeek w rs 0 0 0 with
    | .error e => .error e
    | .ok (rs2, _, udF, totF) => runWeeks ws rs2 (some (udF, totF))

/-- The week indices visited by `range(1, n_weeks)`. -/
def weekRange (n_weeks : ℤ) : List ℤ :=
  (List.range (n_weeks - 1).toNat).map (fun i : ℕ => (i : ℤ) + 1)

/-- `run_mass_balance(reservoirs, n_weeks)`: runs the chain for weeks
1 .. n_weeks-1 and then reads `unfulfilled_demand` (and conceptually
`total_unfulfilled_demand`) after the loop; if the loop never ran, that read
raises `NameError`.  Returns the final reservoirs, the last reservoir's
unfulfilled demand of the last week, and the last week's accumulated total. -/
def run_mass_balance (reservoirs : List Reservoir) (n_weeks : ℤ) :
    Except Err (List Reservoir × ℚ × ℚ) :=
  match runWeeks (weekRange n_weeks) reservoirs none with
  | .error e => .error e
  | .ok (_, none) => .error .nameError
  | .ok (rs, some (ud, tot)) => .ok (rs, ud, tot)

/-- The observable output of `run_mass_balance`: the value printed by
`if unfulfilled_demand > 0: print("Total unfulfilled demand of ...")`,
`none` when nothing is printed. -/
def reported_unfulfilled_demand (reservoirs : List Reservoir) (n_weeks : ℤ) :
    Except Err (Option ℚ) :=
  match run_mass_balance reservoirs n_weeks with
  | .error e => .error e
  | .ok (_, ud, _) => .ok (if ud > 0 then some ud else none)

/-! Concrete fixtures used by the scenario claims and the witnesses.
`resA` is the reservoir of the repository's own test
(`test_reservoir_mass_balance.py`), restricted to the first two weeks. -/

def curveS : List ℚ := [0, 500, 800, 1000]

def curveA : List ℚ := [0, 400, 600, 900]

def resA : Reservoir := Reservoir.init curveS curveA [1/20, 1/20] [15, 15] [200, 200]

def resDry : Reservoir := Reservoir.init [0, 100] [0, 0] [0, 0] [0, 0] [0, 150]

def resCalm : Reservoir := Reservoir.init [0, 100] [0, 0] [0, 0] [0, 0] [0, 0]

def chainA : List Reservoir := [resDry, resCalm]

def resOver : Reservoir := Reservoir.init [0, 100] [0, 0] [0, 0] [0, 50] [0, 0]

def resDown : Reservoir := Reservoir.init [0, 100] [0, 0] [0, 0] [0, 0] [0, 30]

/-- C2: evaporation is rate times the area at the PREVIOUS week's storage.
With the test curve (capacity 1000, area 900 at capacity), rate 1/20,
inflow 15, demand 200 and a full reservoir, `mass_balance(0, 1)` sees
area 900, evaporation 45, candidate 770, returns release 0 and unfulfilled
demand 0, and writes `stored_volume[1] = 770`. -/
theorem mass_balance_explicit_euler_scenario :
    resA.calculate_area 1000 = .ok 900 ∧
    (1 / 20 : ℚ) * 900 = 45 ∧
    candidate 1000 0 15 (1 / 20) 900 200 = 770 ∧
    resA.mass_balance 0 1 =
      .ok ({ resA with stored_volume := [1000, 770] }, 0, 0) := by
  refine ⟨rfl, by norm_num, by norm_num [candidate], ?_⟩
  norm_num [Reservoir.mass_balance, Reservoir.calculate_area, Reservoir.curveT,
    Reservoir.capacity, Reservoir.init, setStored, resA, curveS, curveA, areaLoop,
    candidate, List.replicate]

/-- C3: on the curve with storages [0, 500, 800, 1000] and areas
[0, 400, 600, 900], the area lookup returns 400 at 500 (interior breakpoint,
zero-numerator interpolation), 500 at 650 (interpolation between (500, 400)
and (800, 600)), and 900 at 1000 (last breakpoint, returned directly). -/
theorem calculate_area_scenario :
    resA.calculate_area 500 = .ok 400 ∧
    resA.calculate_area 650 = .ok 500 ∧
    resA.calculate_area 1000 = .ok 900 := by
  refine ⟨?_, ?_, rfl⟩ <;>
  norm_num [Reservoir.calculate_area, Reservoir.curveT, Reservoir.capacity,
    Reservoir.init, resA, curveS, curveA, areaLoop]

/-- Helper: a successful `mass_balance` call writes exactly one clamped value
at index `week` of the stored-volume list, which is in bounds, and leaves
every other field of the reservoir untouched. -/
theorem mass_balance_ok_shape {r : Reservoir} {u : ℚ} {week : ℤ}
    {r' : Reservoir} {rel ud : ℚ}
    (h : r.mass_balance u week = .ok (r', rel, ud)) :
    week.toNat < r.stored_volume.length ∧
    ∃ v, r' = setStored r week.toNat v ∧
      (v = r.capacity ∨ v = 0 ∨ (0 ≤ v ∧ v ≤ r.capacity)) := by
  unfold Reservoir.mass_balance at h
  split at h
  · exact absurd h (by simp)
  split at h
  case _ evRate prev infl dem cur hev hprev hinfl hdem hcur =>
    obtain ⟨hlt, -⟩ := List.get?_eq_some.mp hcur
    refine ⟨hlt, ?_⟩
    split at h
    · exact absurd h (by simp)
    split_ifs at h with hgt hneg <;>
      simp only [Except.ok.injEq, Prod.mk.injEq] at h
    · exact ⟨r.capacity, h.1.symm, Or.inl rfl⟩
    · exact ⟨0, h.1.symm, Or.inr (Or.inl rfl)⟩
    · exact ⟨_, h.1.symm, Or.inr (Or.inr ⟨not_lt.mp hneg, not_lt.mp hgt⟩)⟩
  case _ =>
    exact absurd h (by simp)

/-- C1: for every reservoir and every week at least 1 whose series reads and
area lookup succeed, `mass_balance` computes the candidate storage and applies
the clamp policy in order (spill above capacity, unfulfilled demand below
zero, otherwise identity), and at most one of release and unfulfilled demand
is nonzero. -/
theorem mass_balance_clamp (r : Reservoir) (u : ℚ) (week : ℤ)
    (evRate prev infl dem cur area : ℚ)
    (hweek : 1 ≤ week)
    (hev : r.evaporation_series.get? week.toNat = some evRate)
    (hprev : r.stored_volume.get? (week.toNat - 1) = some prev)
    (hinfl : r.inflow_series.get? week.toNat = some infl)
    (hdem : r.demand_series.get? week.toNat = some dem)
    (hcur : r.stored_volume.get? week.toNat = some cur)
    (harea : r.calculate_area prev = .ok area) :
    (r.mass_balance u week =
      if candidate prev u infl evRate area dem > r.capacity then
        .ok (setStored r week.toNat r.capacity,
             candidate prev u infl evRate area dem - r.capacity, 0)
      else if candidate prev u infl evRate area dem < 0 then
        .ok (setStored r week.toNat 0,
             0, -candidate prev u infl evRate area dem)
      else
        .ok (setStored r week.toNat
               (candidate prev u infl evRate area dem), 0, 0)) ∧
    (∀ r' rel ud, r.mass_balance u week = .ok (r', rel, ud) →
      rel = 0 ∨ ud = 0) := by
  constructor
  · simp only [Reservoir.mass_balance, if_neg (not_lt.mpr hweek), hev, hprev,
      hinfl, hdem, hcur, harea]
  · intro r' rel ud h
    simp only [Reservoir.mass_balance, if_neg (not_lt.mpr hweek), hev, hprev,
      hinfl, hdem, hcur, harea] at h
    split_ifs at h <;> simp only [Except.ok.injEq, Prod.mk.injEq] at h
    · exact Or.inr h.2.2.symm
    · exact Or.inl h.2.1.symm
    · exact Or.inl h.2.1.symm

/-- Witness for C1: the repository's own test step (`mass_balance(100, 1)` on
the test reservoir) instantiates the clamp theorem; the candidate 870 lies
within [0, 1000], so nothing is clamped and stored_volume[1] becomes 870. -/
theorem mass_balance_clamp_witness :
    resA.mass_balance 100 1 =
      .ok ({ resA with stored_volume := [1000, 870] }, 0, 0) := by
  have key := mass_balance_clamp resA 100 1 (1/20) 1000 15 200 1000 900
    (by norm_num) rfl rfl rfl rfl rfl rfl
  rw [key.1]
  norm_num [candidate, Reservoir.capacity, Reservoir.init, setStored, resA,
    curveS, List.replicate]

/-- C8: `mass_balance` with any week below 1 fails with the invalid-week
error; no result is produced and, the update being modelled functionally, no
reservoir state is changed. -/
theorem mass_balance_invalid_week (r : Reservoir) (u : ℚ) (week : ℤ)
    (h : week < 1) :
    r.mass_balance u week = .error .invalidWeek := by
  unfold Reservoir.mass_balance
  rw [if_pos h]

/-- Witness for C8: `mass_balance(0, 0)` on the test reservoir fails. -/
theorem mass_balance_invalid_week_witness :
    resA.mass_balance 0 0 = .error .invalidWeek :=
  mass_balance_invalid_week resA 0 0 (by norm_num)

/-- C4: the stored-volume invariant.  The constructor fills every index with
the capacity, so a nonnegative capacity puts all of them in [0, capacity];
and a successful `mass_balance` call on a reservoir whose trajectory is in
[0, capacity] leaves the capacity unchanged and keeps every index in
[0, capacity], whatever the inputs were. -/
theorem stored_volume_invariant :
    (∀ storages areas evaporations inflows demands : List ℚ,
      0 ≤ (Reservoir.init storages areas evaporations inflows demands).capacity →
      ∀ x ∈ (Reservoir.init storages areas evaporations inflows demands).stored_volume,
        0 ≤ x ∧ x ≤ (Reservoir.init storages areas evaporations inflows demands).capacity) ∧
    (∀ (r r' : Reservoir) (u rel ud : ℚ) (week : ℤ),
      0 ≤ r.capacity →
      (∀ x ∈ r.stored_volume, 0 ≤ x ∧ x ≤ r.capacity) →
      r.mass_balance u week = .ok (r', rel, ud) →
      r'.capacity = r.capacity ∧
        ∀ x ∈ r'.stored_volume, 0 ≤ x ∧ x ≤ r'.capacity) := by
  constructor
  · intro storages areas evaporations inflows demands hcap x hx
    simp only [Reservoir.init, Reservoir.capacity, List.mem_replicate] at hx hcap ⊢
    obtain ⟨-, rfl⟩ := hx
    exact ⟨hcap, le_refl _⟩
  · intro r r' u rel ud week hcap hall h
    obtain ⟨-, v, rfl, hv⟩ := mass_balance_ok_shape h
    refine ⟨rfl, ?_⟩
    intro x hx
    rcases List.mem_or_eq_of_mem_set hx with hx' | rfl
    · exact hall x hx'
    · rcases hv with rfl | rfl | hv
      · exact ⟨hcap, le_refl _⟩
      · exact ⟨le_refl _, hcap⟩
      · exact hv

/-- Witness for C4: the constructor part at the test fixture, and the
preservation part along the week-1 step of the C2 scenario. -/
theorem stored_volume_invariant_witness :
    (∀ x ∈ resA.stored_volume, 0 ≤ x ∧ x ≤ resA.capacity) ∧
    (setStored resA 1 770).capacity = resA.capacity ∧
    ∀ x ∈ (setStored resA 1 770).stored_volume,
      0 ≤ x ∧ x ≤ (setStored resA 1 770).capacity := by
  refine ⟨?_, ?_⟩
  · exact stored_volume_invariant.1 curveS curveA [1/20, 1/20] [15, 15]
      [200, 200] (by norm_num [Reservoir.init, Reservoir.capacity, curveS])
  · refine stored_volume_invariant.2 resA (setStored resA 1 770) 0 0 0 1
      (by norm_num [Reservoir.capacity, Reservoir.init, resA, curveS])
      (by norm_num [Reservoir.capacity, Reservoir.init, resA, curveS,
        List.replicate]) ?_
    norm_num [Reservoir.mass_balance, Reservoir.calculate_area,
      Reservoir.curveT, Reservoir.capacity, Reservoir.init, setStored, resA,
      curveS, curveA, areaLoop, candidate, List.replicate]

/-- C7: on a curve with at least two breakpoints, first storage 0 and second
storage positive and capacity nonnegative, the area lookup fails with the
out-of-range error exactly on storages above capacity; every other storage,
including every negative one, yields a value, the negative ones falling
through to the first segment's interpolation formula (an extrapolation). -/
theorem calculate_area_range_errors (r : Reservoir) (s1 a0 a1 : ℚ)
    (srest arest : List ℚ)
    (hs : r.curve_storage = 0 :: s1 :: srest)
    (ha : r.curve_area = a0 :: a1 :: arest)
    (hs1 : 0 < s1) (hcap : 0 ≤ r.capacity) :
    (∀ v, r.capacity < v → r.calculate_area v = .error .outOfRange) ∧
    (∀ v, v ≤ r.capacity → ∃ a, r.calculate_area v = .ok a) ∧
    (∀ v, v < 0 →
      r.calculate_area v = .ok (a0 + (v - 0) / (s1 - 0) * (a1 - a0))) := by
  refine ⟨?_, ?_, ?_⟩
  · intro v hv
    unfold Reservoir.calculate_area
    rw [if_pos hv]
  · intro v hv
    unfold Reservoir.calculate_area
    rw [if_neg (not_lt.mpr hv)]
    simp only [Reservoir.curveT, hs, ha, List.zip_cons_cons]
    exact ⟨_, rfl⟩
  · intro v hv
    unfold Reservoir.calculate_area
    rw [if_neg (not_lt.mpr (le_trans hv.le hcap))]
    simp only [Reservoir.curveT, hs, ha, List.zip_cons_cons]
    simp only [areaLoop, if_pos (lt_trans hv hs1)]

/-- Witness for C7: on the test curve, storage 2000 is rejected, storage 300
succeeds, and the negative storage -10 silently extrapolates off the first
segment. -/
theorem calculate_area_range_errors_witness :
    resA.calculate_area 2000 = .error .outOfRange ∧
    (∃ a, resA.calculate_area 300 = .ok a) ∧
    resA.calculate_area (-10) = .ok (0 + (-10 - 0) / (500 - 0) * (400 - 0)) := by
  have key := calculate_area_range_errors resA 500 0 400 [800, 1000] [600, 900]
    rfl rfl (by norm_num)
    (by norm_num [Reservoir.capacity, Reservoir.init, resA, curveS])
  exact ⟨key.1 2000
      (by norm_num [Reservoir.capacity, Reservoir.init, resA, curveS]),
    key.2.1 300
      (by norm_num [Reservoir.capacity, Reservoir.init, resA, curveS]),
    key.2.2 (-10) (by norm_num)⟩

/-- C9: a successful `mass_balance` call leaves the curve, the capacity and
the three input series untouched; the stored-volume list is changed by a
single in-bounds write at index `week`, so every other index is unchanged. -/
theorem mass_balance_frame (r : Reservoir) (u : ℚ) (week : ℤ)
    (r' : Reservoir) (rel ud : ℚ)
    (h : r.mass_balance u week = .ok (r', rel, ud)) :
    r'.curve_storage = r.curve_storage ∧
    r'.curve_area = r.curve_area ∧
    r'.evaporation_series = r.evaporation_series ∧
    r'.inflow_series = r.inflow_series ∧
    r'.demand_series = r.demand_series ∧
    r'.capacity = r.capacity ∧
    week.toNat < r.stored_volume.length ∧
    (∃ v, r'.stored_volume = r.stored_volume.set week.toNat v) ∧
    ∀ j, j ≠ week.toNat → r'.stored_volume.get? j = r.stored_volume.get? j := by
  obtain ⟨hlt, v, rfl, -⟩ := mass_balance_ok_shape h
  refine ⟨rfl, rfl, rfl, rfl, rfl, rfl, hlt, ⟨v, rfl⟩, ?_⟩
  intro j hj
  exact List.get?_set_ne v r.stored_volume (fun e => hj e.symm)

/-- Witness for C9: the spill step of the overflow fixture rewrites only
index 1 of the trajectory and keeps all other fields and index 0. -/
theorem mass_balance_frame_witness :
    (setStored resOver 1 resOver.capacity).demand_series =
        resOver.demand_series ∧
    (1 : ℤ).toNat < resOver.stored_volume.length ∧
    (setStored resOver 1 resOver.capacity).stored_volume.get? 0 =
      resOver.stored_volume.get? 0 := by
  have key := mass_balance_frame resOver 0 1
    (setStored resOver 1 resOver.capacity) 50 0
    (by norm_num [Reservoir.mass_balance, Reservoir.calculate_area,
      Reservoir.curveT, Reservoir.capacity, Reservoir.init, setStored, resOver,
      areaLoop, candidate, List.replicate])
  exact ⟨key.2.2.2.2.1, key.2.2.2.2.2.2.1,
    key.2.2.2.2.2.2.2.2 0 (by norm_num)⟩

/-- C6: the chain driver visits exactly the weeks 1 .. n_weeks-1; within a
week the release starts at 0, each reservoir's returned release is passed as
the next reservoir's upstream input for the same week (shown for the
two-reservoir chain), and the last reservoir's release is discarded — the
next week again starts from release 0, independent of the previous week's
final release. -/
theorem chain_driver_order :
    (∀ (n w : ℤ), w ∈ weekRange n ↔ 1 ≤ w ∧ w < n) ∧
    (∀ (w : ℤ) (r1 r2 r1' r2' : Reservoir) (rel1 ud1 rel2 ud2 : ℚ),
      r1.mass_balance 0 w = .ok (r1', rel1, ud1) →
      r2.mass_balance rel1 w = .ok (r2', rel2, ud2) →
      runWeek w [r1, r2] 0 0 0 = .ok ([r1', r2'], rel2, ud2, ud1 + ud2)) ∧
    (∀ (w : ℤ) (ws : List ℤ) (rs : List Reservoir) (acc : Option (ℚ × ℚ))
        (rs2 : List Reservoir) (relF udF totF : ℚ),
      runWeek w rs 0 0 0 = .ok (rs2, relF, udF, totF) →
      runWeeks (w :: ws) rs acc = runWeeks ws rs2 (some (udF, totF))) := by
  refine ⟨?_, ?_, ?_⟩
  · intro n w
    unfold weekRange
    constructor
    · intro hw
      obtain ⟨i, hi, rfl⟩ := List.mem_map.mp hw
      have hi' : i < (n - 1).toNat := List.mem_range.mp hi
      omega
    · rintro ⟨h1, h2⟩
      exact List.mem_map.mpr
        ⟨(w - 1).toNat, List.mem_range.mpr (by omega), by omega⟩
  · intro w r1 r2 r1' r2' rel1 ud1 rel2 ud2 h1 h2
    simp only [runWeek, h1, h2, zero_add]
  · intro w ws rs acc rs2 relF udF totF h
    simp only [runWeeks, h]

/-- Witness for C6: week 3 is visited when simulating 5 weeks; in the
two-reservoir overflow fixture, the 50 units spilled by the upstream
reservoir enter the downstream one in the same week and make it spill 20;
and the week loop hands the next week the updated reservoirs with release
reset, discarding the final release. -/
theorem chain_driver_order_witness :
    ((3 : ℤ) ∈ weekRange 5 ↔ 1 ≤ (3 : ℤ) ∧ (3 : ℤ) < 5) ∧
    runWeek 1 [resOver, resDown] 0 0 0 =
      .ok ([setStored resOver 1 resOver.capacity,
            setStored resDown 1 resDown.capacity], 20, 0, 0 + 0) ∧
    runWeeks [(1 : ℤ)] chainA none =
      runWeeks [] [setStored resDry 1 0, setStored resCalm 1 100]
        (some (0, 50)) := by
  refine ⟨chain_driver_order.1 5 3, ?_, ?_⟩
  · exact chain_driver_order.2.1 1 resOver resDown
      (setStored resOver 1 resOver.capacity)
      (setStored resDown 1 resDown.capacity) 50 0 20 0
      (by norm_num [Reservoir.mass_balance, Reservoir.calculate_area,
        Reservoir.curveT, Reservoir.capacity, Reservoir.init, setStored,
        resOver, areaLoop, candidate, List.replicate])
      (by norm_num [Reservoir.mass_balance, Reservoir.calculate_area,
        Reservoir.curveT, Reservoir.capacity, Reservoir.init, setStored,
        resDown, areaLoop, candidate, List.replicate])
  · exact chain_driver_order.2.2 1 [] chainA none
      [setStored resDry 1 0, setStored resCalm 1 100] 0 0 50
      (by norm_num [runWeek, Reservoir.mass_balance, Reservoir.calculate_area,
        Reservoir.curveT, Reservoir.capacity, Reservoir.init, setStored,
        chainA, resDry, resCalm, areaLoop, candidate, List.replicate])

/-- C5 counterevidence: in a two-reservoir chain where the upstream reservoir
ends the last week with unfulfilled demand 50 and the downstream one with 0,
the last week's accumulated total is 50, yet the driver's reporting step
reads the per-reservoir variable of the LAST reservoir (0), so nothing is
reported.  The code's own message announces a total; it prints the loop-local
single-reservoir value instead. -/
theorem run_reports_single_reservoir_not_total :
    (run_mass_balance chainA 2).map (fun p => p.2) = .ok ((0 : ℚ), (50 : ℚ)) ∧
    reported_unfulfilled_demand chainA 2 = .ok none := by
  norm_num [run_mass_balance, reported_unfulfilled_demand, runWeeks, weekRange,
    runWeek, Reservoir.mass_balance, Reservoir.calculate_area, Reservoir.curveT,
    Reservoir.capacity, Reservoir.init, setStored, chainA, resDry, resCalm,
    areaLoop, candidate, List.replicate, List.range_succ, Except.map]

/-- C10: with `n_weeks` at most 1 the week loop body never runs, so the
reporting statement after the loop reads the never-bound variable
`unfulfilled_demand` and the call fails with a NameError instead of being a
no-op. -/
theorem run_mass_balance_name_error (rs : List Reservoir) (n : ℤ)
    (h : n ≤ 1) :
    run_mass_balance rs n = .error .nameError := by
  have h0 : (n - 1).toNat = 0 := by omega
  simp [run_mass_balance, weekRange, h0, runWeeks]

/-- Witness for C10: one week means zero simulated steps and a NameError. -/
theorem run_mass_balance_name_error_witness :
    run_mass_balance chainA 1 = .error .nameError :=
  run_mass_balance_name_error chainA 1 (by norm_num)

end ReservoirSim
